import Mathlib

/-!
Shallow embedding of the `LoopingThread` periodic task runner
(`looping_thread.hpp`, richest variant: pause/resume with invalid-state
errors, catch-up toggle, error callback).

Modelling choices:
* `std::chrono::steady_clock` time points and durations are `Int` ticks.
* The two `std::timed_mutex`/`std::mutex` gates are booleans recording
  whether the controller currently holds them (`waitMutexLocked` for
  `waitMutex_` held through `waitLock_`, `resumeMutexLocked` for
  `resumeMutex_` held through `resumeLock_`).
* One iteration of the worker loop body (`LoopingThread::work`) is the
  pure function `workCycle`, parameterised by a `WorkerEnv` oracle that
  supplies the clock samples the body takes and whether a concurrent
  release let the timed wait acquire the gate before its deadline.
* C++ exceptions thrown by the routine are the `Thrown` type; `throw`ing
  API functions return `Except String` carrying the `what()` text of the
  `std::logic_error`.
-/

/-- A value thrown by the user routine: either an object derived from
`std::exception` (carrying its `what()` text) or anything else, caught by
the `catch (...)` handler. -/
inductive Thrown where
  | stdExc (what : String)
  | other
  deriving Repr, DecidableEq

/-- The exception text the worker passes to the error callback for a given
thrown value: `e.what()` for a `std::exception`, and the fixed
`std::runtime_error` text for any other thrown value (source lines 62-66). -/
def describeThrown : Thrown → String
  | Thrown.stdExc w => w
  | Thrown.other => "An unknown error has been thrown in a looping thread"

/-- The error callback installed by the main constructor (source line 99):
it writes `e.what()` to `std::cout` followed by `std::endl`.  The result is
the list of lines written to the standard output stream. -/
def defaultErrorCallback (what : String) : List String := [what]

/-- State of a `LoopingThread` object as seen by the controller and, at the
start of each loop iteration, by the worker.  Mutex fields record whether
the controller currently holds the corresponding gate. -/
structure LoopingThread where
  period : Int
  hasRoutine : Bool
  hasWorker : Bool
  exiting : Bool
  paused : Bool
  resetTimeOnPause : Bool
  catchUp : Bool
  waitMutexLocked : Bool
  resumeMutexLocked : Bool
  errorCallback : Option (String → List String)

namespace LoopingThread

/-- Default constructor (source lines 80-83): `routine_(nullptr)`, no worker
thread.  `period_` and `paused_` are left uninitialised in the C++ code, so
the model takes their junk values as parameters; `exiting_ = false`,
`resetTimeOnPause_ = true` and `catchUp_ = true` come from the in-class
initialisers, the mutexes start unlocked and `errorCallback_` is an empty
`std::function`. -/
def mkDefault (junkPeriod : Int) (junkPaused : Bool) : LoopingThread :=
  { period := junkPeriod
    hasRoutine := false
    hasWorker := false
    exiting := false
    paused := junkPaused
    resetTimeOnPause := true
    catchUp := true
    waitMutexLocked := false
    resumeMutexLocked := false
    errorCallback := none }

/-- Resume (source lines 138-146): guarded by `routine_`; throws
`std::logic_error` when not paused; otherwise clears `paused_`, locks
`waitLock_` and unlocks `resumeLock_`. -/
def resume (t : LoopingThread) : Except String LoopingThread :=
  if t.hasRoutine then
    if !t.paused then
      Except.error "Resuming a looping thread that is not paused"
    else
      Except.ok { t with paused := false, waitMutexLocked := true,
                         resumeMutexLocked := false }
  else Except.ok t

/-- Pause (source lines 123-133): guarded by `routine_`; throws
`std::logic_error` when already paused; otherwise sets `paused_`, unlocks
`waitLock_`, locks `resumeLock_`, and (under `pauseMutex_`) stores
`resetTime` into `resetTimeOnPause_`. -/
def pause (t : LoopingThread) (resetTime : Bool) : Except String LoopingThread :=
  if t.hasRoutine then
    if t.paused then
      Except.error "Pausing a looping thread that is already paused"
    else
      Except.ok { t with paused := true, waitMutexLocked := false,
                         resumeMutexLocked := true,
                         resetTimeOnPause := resetTime }
  else Except.ok t

/-- Main constructor (source lines 91-103): stores the period, marks the
routine present, starts the worker, locks `resumeLock_`, leaves
`waitLock_` deferred (unlocked), sets `paused_ = true`,
`resetTimeOnPause_ = false`, installs the default error callback, and
calls `resume()` when `run` is true. -/
def construct (period : Int) (run : Bool) : Except String LoopingThread :=
  let t : LoopingThread :=
    { period := period
      hasRoutine := true
      hasWorker := true
      exiting := false
      paused := true
      resetTimeOnPause := false
      catchUp := true
      waitMutexLocked := false
      resumeMutexLocked := true
      errorCallback := some defaultErrorCallback }
  if run then t.resume else Except.ok t

/-- State change performed by the destructor body before `worker_.join()`
(source lines 108-118): when a routine is present, set `exiting_` and
unlock `resumeLock_` if paused, `waitLock_` otherwise. -/
def destructorEffect (t : LoopingThread) : LoopingThread :=
  if t.hasRoutine then
    if t.paused then { t with exiting := true, resumeMutexLocked := false }
    else { t with exiting := true, waitMutexLocked := false }
  else t

/-- `setPeriod` (source lines 152-155): an unguarded assignment to
`period_`. -/
def setPeriod (t : LoopingThread) (newPeriod : Int) : LoopingThread :=
  { t with period := newPeriod }

/-- `setCatchUp` (source lines 165-168): an unguarded assignment to
`catchUp_`. -/
def setCatchUp (t : LoopingThread) (catchUp : Bool) : LoopingThread :=
  { t with catchUp := catchUp }

/-- `setErrorCallback` (source lines 174-177): an unguarded assignment to
`errorCallback_`. -/
def setErrorCallback (t : LoopingThread) (cb : String → List String) :
    LoopingThread :=
  { t with errorCallback := some cb }

end LoopingThread

/-- Well-formedness of a runner state with a routine, as established by the
constructor and preserved by `pause`/`resume`: the controller holds
`waitMutex_` exactly while the runner is not paused, and holds
`resumeMutex_` exactly while it is paused. -/
def WF (t : LoopingThread) : Prop :=
  t.hasRoutine = true →
    t.waitMutexLocked = !t.paused ∧ t.resumeMutexLocked = t.paused

/-- Environment oracle for one worker-loop iteration: the clock samples the
body takes and the concurrency outcome of the timed wait.
`now1` is `steady_clock::now()` in the deadline comparison (line 45),
`timedWaitAcquires` tells whether a concurrent controller release let
`try_lock_until` acquire the gate before the deadline, `now2` is `now()`
in the reset block (line 49), `thrown` is the routine outcome, and `now3`
is `now()` in the post-routine deadline update (line 70). -/
structure WorkerEnv where
  now1 : Int
  timedWaitAcquires : Bool
  now2 : Int
  thrown : Option Thrown
  now3 : Int
  deriving Repr, DecidableEq

/-- How one worker-loop iteration ended: `exit` for the `break` on
`exiting_`, `pauseWait` for blocking on `resumeMutex_`, and `tick err` for
a routine invocation, `err` being the exception text passed to the error
callback when the routine threw. -/
inductive CycleOutcome where
  | exit
  | pauseWait
  | tick (err : Option String)
  deriving Repr, DecidableEq

/-- Observable result of one worker-loop iteration. -/
structure CycleResult where
  outcome : CycleOutcome
  awakenAt : Int
  resetTimeOnPause : Bool
  timedWaitUntil : Option Int
  resetAwakenAt : Option Int
  routineRan : Bool
  deriving Repr, DecidableEq

/-- One iteration of the worker loop body (source lines 38-72), evaluated
against the runner state visible at the start of the iteration and the
environment oracle.  The non-blocking `try_to_lock` succeeds exactly when
the controller does not hold `waitMutex_`; the timed wait is attempted
only when that failed and `awakenAt >= now()` held; the reset block then
possibly rewrites `awakenAt` and clears the flag; finally the interrupted
branch exits or pauses, and the tick branch runs the routine under the
try/catch and recomputes the deadline from `catchUp_` and `period_`. -/
def workCycle (s : LoopingThread) (awakenAt : Int) (env : WorkerEnv) :
    CycleResult :=
  let immediateAcquire := !s.waitMutexLocked
  let timedWaitTried := s.waitMutexLocked && decide (awakenAt ≥ env.now1)
  let interrupted :=
    immediateAcquire || (timedWaitTried && env.timedWaitAcquires)
  let timedWaitUntil := if timedWaitTried then some awakenAt else none
  let awakenAt1 :=
    if s.resetTimeOnPause then env.now2 + s.period else awakenAt
  let resetAssigned :=
    if s.resetTimeOnPause then some (env.now2 + s.period) else none
  let resetFlag1 := if s.resetTimeOnPause then false else s.resetTimeOnPause
  if interrupted then
    { outcome := if s.exiting then CycleOutcome.exit else CycleOutcome.pauseWait
      awakenAt := awakenAt1
      resetTimeOnPause := resetFlag1
      timedWaitUntil := timedWaitUntil
      resetAwakenAt := resetAssigned
      routineRan := false }
  else
    { outcome := CycleOutcome.tick (env.thrown.map describeThrown)
      awakenAt := if s.catchUp then awakenAt1 + s.period else env.now3 + s.period
      resetTimeOnPause := resetFlag1
      timedWaitUntil := timedWaitUntil
      resetAwakenAt := resetAssigned
      routineRan := true }

/-- Example running state: the result of `construct 10 true`, i.e. a runner
with period 10 that has been resumed (controller holds `waitMutex_`). -/
def sRun : LoopingThread :=
  { period := 10
    hasRoutine := true
    hasWorker := true
    exiting := false
    paused := false
    resetTimeOnPause := false
    catchUp := true
    waitMutexLocked := true
    resumeMutexLocked := false
    errorCallback := some defaultErrorCallback }

/-- Example paused state: the result of `construct 10 false`. -/
def sPaused : LoopingThread :=
  { period := 10
    hasRoutine := true
    hasWorker := true
    exiting := false
    paused := true
    resetTimeOnPause := false
    catchUp := true
    waitMutexLocked := false
    resumeMutexLocked := true
    errorCallback := some defaultErrorCallback }

/-- Example environment in which the timed wait times out and the routine
returns normally. -/
def envTimeout : WorkerEnv :=
  { now1 := 15, timedWaitAcquires := false, now2 := 20, thrown := none,
    now3 := 20 }

example : LoopingThread.construct 10 true = Except.ok sRun := rfl
example : LoopingThread.construct 10 false = Except.ok sPaused := rfl
example : (workCycle sRun 20 envTimeout).routineRan = true := by decide
example : (workCycle sRun 20 envTimeout).awakenAt = 30 := by decide

/-- C1: for every runner with a routine, the destructor sets `exiting_`,
releases exactly the gate the worker is currently blocked on (the
pause/resume gate `resumeMutex_` if paused, the interrupt/wait gate
`waitMutex_` otherwise, the other gate being left as it was), and the
worker-loop iteration that observes the released gate acquires it with the
non-blocking check, performs no timed wait (so no remainder of a wait until
the next deadline is waited out), does not invoke the routine, and
terminates the loop, after which `worker_.join()` returns. -/
theorem destructor_releases_gate_and_worker_exits
    (s : LoopingThread) (a : Int) (env : WorkerEnv)
    (hR : s.hasRoutine = true) (hWF : WF s) :
    s.destructorEffect.exiting = true
    ∧ (s.paused = true → s.destructorEffect.resumeMutexLocked = false
        ∧ s.destructorEffect.waitMutexLocked = s.waitMutexLocked)
    ∧ (s.paused = false → s.destructorEffect.waitMutexLocked = false
        ∧ s.destructorEffect.resumeMutexLocked = s.resumeMutexLocked)
    ∧ (workCycle s.destructorEffect a env).outcome = CycleOutcome.exit
    ∧ (workCycle s.destructorEffect a env).timedWaitUntil = none
    ∧ (workCycle s.destructorEffect a env).routineRan = false := by
  obtain ⟨hW, hRm⟩ := hWF hR
  cases hp : s.paused with
  | true =>
    rw [hp] at hW
    simp only [Bool.not_true] at hW
    simp [LoopingThread.destructorEffect, hR, hp, workCycle, hW]
  | false =>
    simp [LoopingThread.destructorEffect, hR, hp, workCycle]

/-- C1 witness: destroying the concrete running runner `sRun` while it is
between ticks (deadline 20) releases the wait gate and the next worker
iteration exits without any timed wait or routine call. -/
theorem destructor_releases_gate_and_worker_exits_witness :
    sRun.destructorEffect.exiting = true
    ∧ (sRun.paused = true → sRun.destructorEffect.resumeMutexLocked = false
        ∧ sRun.destructorEffect.waitMutexLocked = sRun.waitMutexLocked)
    ∧ (sRun.paused = false → sRun.destructorEffect.waitMutexLocked = false
        ∧ sRun.destructorEffect.resumeMutexLocked = sRun.resumeMutexLocked)
    ∧ (workCycle sRun.destructorEffect 20 envTimeout).outcome = CycleOutcome.exit
    ∧ (workCycle sRun.destructorEffect 20 envTimeout).timedWaitUntil = none
    ∧ (workCycle sRun.destructorEffect 20 envTimeout).routineRan = false :=
  destructor_releases_gate_and_worker_exits sRun 20 envTimeout rfl
    (fun _ => ⟨rfl, rfl⟩)

/-- C2: on a tick, an exception thrown by the routine is caught and its
`what()` text is passed to the error callback, a thrown value that is not a
`std::exception` being first normalised to the fixed unknown-error text;
the deadline update after the catch still runs, so the loop proceeds to
compute the next deadline and the following iteration (in an environment
whose timed wait again times out) invokes the routine again; the
constructor installs `defaultErrorCallback`, which writes the error
description to the standard output stream. -/
theorem routine_error_forwarded_and_loop_continues
    (s : LoopingThread) (a : Int) (env env2 : WorkerEnv) (t : Thrown)
    (hLock : s.waitMutexLocked = true)
    (hNoAcq : env.timedWaitAcquires = false)
    (hThrown : env.thrown = some t)
    (hFlag : s.resetTimeOnPause = false)
    (hNoAcq2 : env2.timedWaitAcquires = false) :
    (workCycle s a env).outcome = CycleOutcome.tick (some (describeThrown t))
    ∧ (workCycle s a env).awakenAt
        = (if s.catchUp then a + s.period else env.now3 + s.period)
    ∧ (workCycle s ((workCycle s a env).awakenAt) env2).routineRan = true
    ∧ describeThrown Thrown.other
        = "An unknown error has been thrown in a looping thread"
    ∧ (∀ q : Int, ∀ run : Bool, ∀ u : LoopingThread,
        LoopingThread.construct q run = Except.ok u →
          u.errorCallback = some defaultErrorCallback)
    ∧ defaultErrorCallback (describeThrown t) = [describeThrown t] := by
  refine ⟨?_, ?_, ?_, rfl, ?_, rfl⟩
  · simp [workCycle, hLock, hNoAcq, hThrown]
  · simp [workCycle, hLock, hNoAcq, hFlag]
  · simp [workCycle, hLock, hNoAcq2]
  · intro q run u hu
    cases run with
    | true =>
      simp [LoopingThread.construct, LoopingThread.resume] at hu
      subst hu
      rfl
    | false =>
      simp [LoopingThread.construct] at hu
      subst hu
      rfl

/-- C2 witness: in the running state `sRun` with deadline 20, a routine
that throws a non-`std::exception` value on the tick at deadline 20 has the
normalised unknown-error text passed to the callback, the next deadline is
still computed (catch-up: 20 + 10), and the following iteration runs the
routine again. -/
theorem routine_error_forwarded_and_loop_continues_witness :
    (workCycle sRun 20
        { now1 := 15, timedWaitAcquires := false, now2 := 20,
          thrown := some Thrown.other, now3 := 21 }).outcome
      = CycleOutcome.tick
          (some (describeThrown Thrown.other))
    ∧ (workCycle sRun 20
        { now1 := 15, timedWaitAcquires := false, now2 := 20,
          thrown := some Thrown.other, now3 := 21 }).awakenAt
      = (if sRun.catchUp then 20 + sRun.period else 21 + sRun.period)
    ∧ (workCycle sRun
        ((workCycle sRun 20
          { now1 := 15, timedWaitAcquires := false, now2 := 20,
            thrown := some Thrown.other, now3 := 21 }).awakenAt)
        envTimeout).routineRan = true
    ∧ describeThrown Thrown.other
        = "An unknown error has been thrown in a looping thread"
    ∧ (∀ q : Int, ∀ run : Bool, ∀ u : LoopingThread,
        LoopingThread.construct q run = Except.ok u →
          u.errorCallback = some defaultErrorCallback)
    ∧ defaultErrorCallback (describeThrown Thrown.other)
        = [describeThrown Thrown.other] :=
  routine_error_forwarded_and_loop_continues sRun 20
    { now1 := 15, timedWaitAcquires := false, now2 := 20,
      thrown := some Thrown.other, now3 := 21 }
    envTimeout Thrown.other rfl rfl rfl rfl rfl

/-- C3: on a runner with a routine, calling `pause` while already paused
raises the invalid-state `std::logic_error` synchronously to the caller
(the check precedes every state mutation in the source, so the rejected
call changes nothing), and calling `resume` while not paused likewise
raises an invalid-state error. -/
theorem pause_resume_reject_invalid_state
    (t : LoopingThread) (rt : Bool) (hR : t.hasRoutine = true) :
    (t.paused = true →
      t.pause rt = Except.error "Pausing a looping thread that is already paused")
    ∧ (t.paused = false →
      t.resume = Except.error "Resuming a looping thread that is not paused") := by
  constructor
  · intro hp
    simp [LoopingThread.pause, hR, hp]
  · intro hp
    simp [LoopingThread.resume, hR, hp]

/-- C3 witness: the concrete paused runner rejects a second `pause` and the
concrete running runner rejects a `resume`. -/
theorem pause_resume_reject_invalid_state_witness :
    sPaused.pause true
      = Except.error "Pausing a looping thread that is already paused"
    ∧ sRun.resume
      = Except.error "Resuming a looping thread that is not paused" :=
  ⟨(pause_resume_reject_invalid_state sPaused true rfl).1 rfl,
   (pause_resume_reject_invalid_state sRun true rfl).2 rfl⟩

/-- C4: on a tick (the timed wait timed out and the reset flag was clear),
the next wake deadline is computed from the current catch-up flag and
period: previous deadline plus period when catch-up is enabled, current
time plus period when it is disabled. -/
theorem tick_deadline_update
    (s : LoopingThread) (a : Int) (env : WorkerEnv)
    (hLock : s.waitMutexLocked = true)
    (hNoAcq : env.timedWaitAcquires = false)
    (hFlag : s.resetTimeOnPause = false) :
    (workCycle s a env).routineRan = true
    ∧ (workCycle s a env).awakenAt
        = (if s.catchUp then a + s.period else env.now3 + s.period) := by
  constructor
  · simp [workCycle, hLock, hNoAcq]
  · simp [workCycle, hLock, hNoAcq, hFlag]

/-- C4 witness: in the running state `sRun` (catch-up enabled, period 10)
a tick at deadline 20 schedules the next tick at 30 = 20 + 10, and in the
same state with catch-up disabled it schedules 30 = now 20 + 10. -/
theorem tick_deadline_update_witness :
    ((workCycle sRun 20 envTimeout).routineRan = true
      ∧ (workCycle sRun 20 envTimeout).awakenAt
          = (if sRun.catchUp then 20 + sRun.period
             else envTimeout.now3 + sRun.period))
    ∧ ((workCycle (sRun.setCatchUp false) 25 envTimeout).routineRan = true
      ∧ (workCycle (sRun.setCatchUp false) 25 envTimeout).awakenAt
          = (if (sRun.setCatchUp false).catchUp then 25 + (sRun.setCatchUp false).period
             else envTimeout.now3 + (sRun.setCatchUp false).period)) :=
  ⟨tick_deadline_update sRun 20 envTimeout rfl rfl rfl,
   tick_deadline_update (sRun.setCatchUp false) 25 envTimeout rfl rfl rfl⟩

/-- C6: in every worker-loop iteration, a successful non-blocking
acquisition of the interrupt gate (controller not holding `waitMutex_`)
takes the interruption path — exit when `exiting_`, otherwise the pause
path — with no timed wait; when the non-blocking attempt fails, the worker
blocks on the gate until the current deadline and an acquisition within
the deadline again takes the interruption path; a timeout (no concurrent
release within the deadline, or a deadline already in the past) is treated
as a normal tick on which the routine is executed. -/
theorem workCycle_gate_protocol
    (s : LoopingThread) (a : Int) (env : WorkerEnv) :
    (s.waitMutexLocked = false →
      (workCycle s a env).outcome
          = (if s.exiting then CycleOutcome.exit else CycleOutcome.pauseWait)
      ∧ (workCycle s a env).timedWaitUntil = none
      ∧ (workCycle s a env).routineRan = false)
    ∧ (s.waitMutexLocked = true → a ≥ env.now1 → env.timedWaitAcquires = true →
      (workCycle s a env).outcome
          = (if s.exiting then CycleOutcome.exit else CycleOutcome.pauseWait)
      ∧ (workCycle s a env).timedWaitUntil = some a
      ∧ (workCycle s a env).routineRan = false)
    ∧ (s.waitMutexLocked = true →
        (env.timedWaitAcquires = false ∨ a < env.now1) →
      (workCycle s a env).outcome
          = CycleOutcome.tick (env.thrown.map describeThrown)
      ∧ (workCycle s a env).routineRan = true) := by
  refine ⟨?_, ?_, ?_⟩
  · intro hL
    refine ⟨?_, ?_, ?_⟩ <;> simp [workCycle, hL]
  · intro hL hD hA
    refine ⟨?_, ?_, ?_⟩ <;> simp [workCycle, hL, hD, hA]
  · intro hL hT
    cases hT with
    | inl hA => refine ⟨?_, ?_⟩ <;> simp [workCycle, hL, hA]
    | inr hD =>
      have hD2 : ¬(a ≥ env.now1) := by omega
      refine ⟨?_, ?_⟩ <;> simp [workCycle, hL, hD2]

/-- C6 witness: in the running state `sRun` at deadline 20, an environment
whose timed wait times out at the deadline produces a normal tick that
executes the routine. -/
theorem workCycle_gate_protocol_witness :
    (workCycle sRun 20 envTimeout).outcome
        = CycleOutcome.tick (envTimeout.thrown.map describeThrown)
    ∧ (workCycle sRun 20 envTimeout).routineRan = true :=
  (workCycle_gate_protocol sRun 20 envTimeout).2.2 rfl (Or.inl rfl)

/-- C7: `setPeriod` updates only the stored period: every other field of
the runner is unchanged; the worker-side wake deadline is a loop-local
variable the call never touches, so the iteration after the call still
waits on exactly the deadline computed before it (same timed-wait bound,
same outcome, same routine decision as without the call), and the new
period is first used at the next deadline computation, whose result on a
tick is previous deadline plus the new period (catch-up) or now plus the
new period. -/
theorem setPeriod_updates_only_period
    (t : LoopingThread) (p : Int) (a : Int) (env : WorkerEnv) :
    (t.setPeriod p).period = p
    ∧ (t.setPeriod p).hasRoutine = t.hasRoutine
    ∧ (t.setPeriod p).hasWorker = t.hasWorker
    ∧ (t.setPeriod p).exiting = t.exiting
    ∧ (t.setPeriod p).paused = t.paused
    ∧ (t.setPeriod p).resetTimeOnPause = t.resetTimeOnPause
    ∧ (t.setPeriod p).catchUp = t.catchUp
    ∧ (t.setPeriod p).waitMutexLocked = t.waitMutexLocked
    ∧ (t.setPeriod p).resumeMutexLocked = t.resumeMutexLocked
    ∧ (t.setPeriod p).errorCallback = t.errorCallback
    ∧ (workCycle (t.setPeriod p) a env).timedWaitUntil
        = (workCycle t a env).timedWaitUntil
    ∧ (workCycle (t.setPeriod p) a env).outcome = (workCycle t a env).outcome
    ∧ (workCycle (t.setPeriod p) a env).routineRan
        = (workCycle t a env).routineRan
    ∧ (t.resetTimeOnPause = false → t.waitMutexLocked = true →
        env.timedWaitAcquires = false →
      (workCycle (t.setPeriod p) a env).awakenAt
          = (if t.catchUp then a + p else env.now3 + p)) := by
  refine ⟨rfl, rfl, rfl, rfl, rfl, rfl, rfl, rfl, rfl, rfl, ?_, ?_, ?_, ?_⟩
  · cases hL : t.waitMutexLocked <;> cases hA : env.timedWaitAcquires <;>
      by_cases hD : env.now1 ≤ a <;>
      simp [workCycle, LoopingThread.setPeriod, hL, hA, hD]
  · cases hL : t.waitMutexLocked <;> cases hA : env.timedWaitAcquires <;>
      by_cases hD : env.now1 ≤ a <;>
      simp [workCycle, LoopingThread.setPeriod, hL, hA, hD]
  · cases hL : t.waitMutexLocked <;> cases hA : env.timedWaitAcquires <;>
      by_cases hD : env.now1 ≤ a <;>
      simp [workCycle, LoopingThread.setPeriod, hL, hA, hD]
  · intro hFlag hLock hNoAcq
    simp [workCycle, LoopingThread.setPeriod, hFlag, hLock, hNoAcq]

/-- C7 witness: changing the period of the concrete running runner from 10
to 3 leaves every other field alone, the pending iteration still waits on
the old deadline 20, and the next deadline is 23 = 20 + 3 using the new
period. -/
theorem setPeriod_updates_only_period_witness :
    (sRun.setPeriod 3).period = 3
    ∧ (sRun.setPeriod 3).hasRoutine = sRun.hasRoutine
    ∧ (sRun.setPeriod 3).hasWorker = sRun.hasWorker
    ∧ (sRun.setPeriod 3).exiting = sRun.exiting
    ∧ (sRun.setPeriod 3).paused = sRun.paused
    ∧ (sRun.setPeriod 3).resetTimeOnPause = sRun.resetTimeOnPause
    ∧ (sRun.setPeriod 3).catchUp = sRun.catchUp
    ∧ (sRun.setPeriod 3).waitMutexLocked = sRun.waitMutexLocked
    ∧ (sRun.setPeriod 3).resumeMutexLocked = sRun.resumeMutexLocked
    ∧ (sRun.setPeriod 3).errorCallback = sRun.errorCallback
    ∧ (workCycle (sRun.setPeriod 3) 20 envTimeout).timedWaitUntil
        = (workCycle sRun 20 envTimeout).timedWaitUntil
    ∧ (workCycle (sRun.setPeriod 3) 20 envTimeout).outcome
        = (workCycle sRun 20 envTimeout).outcome
    ∧ (workCycle (sRun.setPeriod 3) 20 envTimeout).routineRan
        = (workCycle sRun 20 envTimeout).routineRan
    ∧ (sRun.resetTimeOnPause = false → sRun.waitMutexLocked = true →
        envTimeout.timedWaitAcquires = false →
      (workCycle (sRun.setPeriod 3) 20 envTimeout).awakenAt
          = (if sRun.catchUp then 20 + 3 else envTimeout.now3 + 3)) :=
  setPeriod_updates_only_period sRun 3 20 envTimeout

/-- Environment in which the current time has already passed the deadline
20 and a concurrent release would be observable (`timedWaitAcquires` is
true), used to show the worker does not re-check the gate. -/
def envPast : WorkerEnv :=
  { now1 := 25, timedWaitAcquires := true, now2 := 25, thrown := none,
    now3 := 25 }

/-- C9: when the deadline has already passed (`awakenAt < now`) and the
initial non-blocking gate check failed, the worker performs no timed wait
and immediately takes the tick branch, executing the routine; this holds
for every environment, in particular one where the gate would have been
acquirable during a wait, so the gate is not re-checked before the
invocation. -/
theorem past_deadline_immediate_tick
    (s : LoopingThread) (a : Int) (env : WorkerEnv)
    (hLock : s.waitMutexLocked = true) (hPast : a < env.now1) :
    (workCycle s a env).timedWaitUntil = none
    ∧ (workCycle s a env).routineRan = true
    ∧ (workCycle s a env).outcome
        = CycleOutcome.tick (env.thrown.map describeThrown) := by
  have hD : ¬(env.now1 ≤ a) := by omega
  refine ⟨?_, ?_, ?_⟩ <;> simp [workCycle, hLock, hD]

/-- C9 witness: the running runner with stale deadline 20 at time 25 ticks
immediately without any timed wait, even though `envPast` says a wait
would have acquired the gate. -/
theorem past_deadline_immediate_tick_witness :
    (workCycle sRun 20 envPast).timedWaitUntil = none
    ∧ (workCycle sRun 20 envPast).routineRan = true
    ∧ (workCycle sRun 20 envPast).outcome
        = CycleOutcome.tick (envPast.thrown.map describeThrown) :=
  past_deadline_immediate_tick sRun 20 envPast rfl (by decide)

/-- C10: the reset flag is consumed exactly once: an iteration that
observes it true assigns `awakenAt := now + period` and clears the flag in
the same guarded block, every iteration ends with the flag false (so the
flag is already false by the time the tick branch invokes the routine),
and the following iteration, run on the state carrying the cleared flag,
performs no deadline-baseline reset. -/
theorem resetTimeOnPause_consumed_once
    (s : LoopingThread) (a a2 : Int) (e1 e2 : WorkerEnv)
    (hFlag : s.resetTimeOnPause = true) :
    (workCycle s a e1).resetAwakenAt = some (e1.now2 + s.period)
    ∧ (workCycle s a e1).resetTimeOnPause = false
    ∧ (workCycle { s with resetTimeOnPause := (workCycle s a e1).resetTimeOnPause }
        a2 e2).resetAwakenAt = none
    ∧ (workCycle { s with resetTimeOnPause := (workCycle s a e1).resetTimeOnPause }
        a2 e2).resetTimeOnPause = false := by
  have h1 : (workCycle s a e1).resetAwakenAt = some (e1.now2 + s.period) := by
    cases hL : s.waitMutexLocked <;> cases hA : e1.timedWaitAcquires <;>
      by_cases hD : e1.now1 ≤ a <;>
      simp [workCycle, hFlag, hL, hA, hD]
  have h2 : (workCycle s a e1).resetTimeOnPause = false := by
    cases hL : s.waitMutexLocked <;> cases hA : e1.timedWaitAcquires <;>
      by_cases hD : e1.now1 ≤ a <;>
      simp [workCycle, hFlag, hL, hA, hD]
  have h3 : (workCycle { s with resetTimeOnPause := (workCycle s a e1).resetTimeOnPause }
      a2 e2).resetAwakenAt = none := by
    rw [h2]
    cases hL : s.waitMutexLocked <;> cases hA : e2.timedWaitAcquires <;>
      by_cases hD : e2.now1 ≤ a2 <;>
      simp [workCycle, hL, hA, hD]
  have h4 : (workCycle { s with resetTimeOnPause := (workCycle s a e1).resetTimeOnPause }
      a2 e2).resetTimeOnPause = false := by
    rw [h2]
    cases hL : s.waitMutexLocked <;> cases hA : e2.timedWaitAcquires <;>
      by_cases hD : e2.now1 ≤ a2 <;>
      simp [workCycle, hL, hA, hD]
  exact ⟨h1, h2, h3, h4⟩

/-- State of the runner right after `pause(true)` followed by `resume()`
starting from the running state `sRun`: running again, reset flag pending. -/
def s2cex : LoopingThread :=
  { period := 10
    hasRoutine := true
    hasWorker := true
    exiting := false
    paused := false
    resetTimeOnPause := true
    catchUp := true
    waitMutexLocked := true
    resumeMutexLocked := false
    errorCallback := some defaultErrorCallback }

/-- Environment for the first worker iteration after the resume at time
15: the timed wait on the stale deadline 20 times out at 20. -/
def envResume : WorkerEnv :=
  { now1 := 15, timedWaitAcquires := false, now2 := 20, thrown := none,
    now3 := 20 }

/-- C10 witness: in the post-pause/resume state `s2cex` (flag pending) the
first iteration resets the deadline to 20 + 10 and clears the flag, and
the following iteration resets nothing. -/
theorem resetTimeOnPause_consumed_once_witness :
    (workCycle s2cex 20 envResume).resetAwakenAt = some (envResume.now2 + s2cex.period)
    ∧ (workCycle s2cex 20 envResume).resetTimeOnPause = false
    ∧ (workCycle { s2cex with
          resetTimeOnPause := (workCycle s2cex 20 envResume).resetTimeOnPause }
        30 envTimeout).resetAwakenAt = none
    ∧ (workCycle { s2cex with
          resetTimeOnPause := (workCycle s2cex 20 envResume).resetTimeOnPause }
        30 envTimeout).resetTimeOnPause = false :=
  resetTimeOnPause_consumed_once s2cex 20 30 envResume envTimeout rfl

/-- C5 counterexample: period 10, running with pending deadline 20;
`pause(true)` at time 12 and `resume()` at time 15 yield the state
`s2cex` with the reset flag pending.  The claim demands the first
post-resume tick one full period after the resume, i.e. at 15 + 10 = 25.
Instead, the first post-resume iteration performs its timed wait bounded
by the stale pre-pause deadline 20 (`timedWaitUntil = some 20`), runs the
routine in that same iteration when the wait times out at 20
(`routineRan = true`, an iteration whose wait cannot extend past 20 < 25),
and although the reset block does set the deadline to 20 + 10 = 30, the
catch-up update afterwards leaves the deadline carried into the next wait
at 40, not the claimed recomputation time plus one period. -/
theorem resume_reset_deadline_counterexample :
    (sRun.pause true).bind LoopingThread.resume = Except.ok s2cex
    ∧ (workCycle s2cex 20 envResume).timedWaitUntil = some 20
    ∧ (workCycle s2cex 20 envResume).routineRan = true
    ∧ (workCycle s2cex 20 envResume).resetAwakenAt = some 30
    ∧ (workCycle s2cex 20 envResume).awakenAt = 40
    ∧ envResume.now1 + s2cex.period = 25
    ∧ (20 : Int) ≠ 25
    ∧ (40 : Int) ≠ 30 := by
  refine ⟨rfl, ?_, ?_, ?_, ?_, by decide, by decide, by decide⟩ <;> decide

/-- C5 amended: after `pause(resetTime = true)` and `resume()`, the first
worker iteration consumes the flag and assigns the deadline variable to
the reset-block time plus the period — but only after its gate wait, which
is still bounded by the stale pre-pause deadline; the routine then runs in
that same iteration (so the first post-resume tick follows the pre-pause
schedule, immediately if the stale deadline has passed), and the deadline
carried into the next wait is the reset value plus one more period under
catch-up, or now plus the period with catch-up disabled. -/
theorem resume_reset_deadline_amended
    (s : LoopingThread) (a : Int) (env : WorkerEnv)
    (hFlag : s.resetTimeOnPause = true)
    (hLock : s.waitMutexLocked = true)
    (hNoAcq : env.timedWaitAcquires = false) :
    (workCycle s a env).resetAwakenAt = some (env.now2 + s.period)
    ∧ (workCycle s a env).resetTimeOnPause = false
    ∧ (workCycle s a env).routineRan = true
    ∧ (workCycle s a env).timedWaitUntil
        = (if env.now1 ≤ a then some a else none)
    ∧ (workCycle s a env).awakenAt
        = (if s.catchUp then env.now2 + s.period + s.period
           else env.now3 + s.period) := by
  refine ⟨?_, ?_, ?_, ?_, ?_⟩ <;>
    simp [workCycle, hFlag, hLock, hNoAcq]

/-- C5 amended witness: in the concrete post-resume state `s2cex`, the
first iteration waits until the stale deadline 20, ticks, resets the
deadline to 30 and carries 40 into the next wait. -/
theorem resume_reset_deadline_amended_witness :
    (workCycle s2cex 20 envResume).resetAwakenAt
        = some (envResume.now2 + s2cex.period)
    ∧ (workCycle s2cex 20 envResume).resetTimeOnPause = false
    ∧ (workCycle s2cex 20 envResume).routineRan = true
    ∧ (workCycle s2cex 20 envResume).timedWaitUntil
        = (if envResume.now1 ≤ (20 : Int) then some 20 else none)
    ∧ (workCycle s2cex 20 envResume).awakenAt
        = (if s2cex.catchUp
           then envResume.now2 + s2cex.period + s2cex.period
           else envResume.now3 + s2cex.period) :=
  resume_reset_deadline_amended s2cex 20 envResume rfl rfl rfl

/-- C8 counterexample: `setPeriod` is not guarded by `routine_`, so on a
default-constructed runner it is not a no-op: it changes the stored
period, contradicting the claim that every public operation leaves the
instance unchanged. -/
theorem default_constructed_setPeriod_counterexample :
    (LoopingThread.mkDefault 0 false).setPeriod 5
      ≠ LoopingThread.mkDefault 0 false := by
  intro h
  exact absurd (congrArg LoopingThread.period h) (by decide)

/-- C8 amended: on a default-constructed runner no worker thread exists,
and `pause`, `resume` and destruction are guarded no-ops that raise no
error and leave the instance unchanged; `setPeriod`, `setCatchUp` and
`setErrorCallback` are unguarded and also raise no error, but each updates
its stored field (changing nothing else, and with no worker to observe
the new value). -/
theorem default_constructed_operations
    (jp : Int) (jb : Bool) (rt : Bool) (p : Int) (c : Bool)
    (cb : String → List String) :
    (LoopingThread.mkDefault jp jb).hasWorker = false
    ∧ (LoopingThread.mkDefault jp jb).pause rt
        = Except.ok (LoopingThread.mkDefault jp jb)
    ∧ (LoopingThread.mkDefault jp jb).resume
        = Except.ok (LoopingThread.mkDefault jp jb)
    ∧ (LoopingThread.mkDefault jp jb).destructorEffect
        = LoopingThread.mkDefault jp jb
    ∧ (LoopingThread.mkDefault jp jb).setPeriod p
        = { LoopingThread.mkDefault jp jb with period := p }
    ∧ (LoopingThread.mkDefault jp jb).setCatchUp c
        = { LoopingThread.mkDefault jp jb with catchUp := c }
    ∧ (LoopingThread.mkDefault jp jb).setErrorCallback cb
        = { LoopingThread.mkDefault jp jb with errorCallback := some cb } := by
  refine ⟨rfl, ?_, ?_, ?_, rfl, rfl, rfl⟩
  · simp [LoopingThread.pause, LoopingThread.mkDefault]
  · simp [LoopingThread.resume, LoopingThread.mkDefault]
  · simp [LoopingThread.destructorEffect, LoopingThread.mkDefault]
